import Mathlib

/-
Verification of the data-shaping layer of `streamlit_app.py` (a Streamlit
stock dashboard).  The Python source is shallowly embedded: pure expressions
become Lean functions over `String`, `List` and `ℚ`; Python exceptions
(`KeyError`, `ZeroDivisionError`, and the error taxonomy named by the design
document) become an `Except Err` result.  Numeric quote values are modelled
as exact rationals, with `round(x, 2)` modelled as round-half-to-even at two
decimals, the rounding mode of the Python builtin.
-/

namespace StockDashboard

/-- Error taxonomy: the four typed errors named by the design document,
plus the two Python built-in exceptions the code can actually raise
(`KeyError` from dict and pandas label lookup, `ZeroDivisionError` from
the percent-change division). -/
inductive Err where
  | emptySeriesError
  | metricNotFoundError
  | quoteFieldMissingError
  | externalFetchError
  | keyError
  | zeroDivisionError
deriving DecidableEq

/-- Word character in the sense of the regex class used at line 117 of
`streamlit_app.py` (ASCII scope): a letter, a digit, or an underscore. -/
def isWordChar (c : Char) : Bool :=
  c.isAlpha || c.isDigit || c = '_'

/-- Matching condition of the zero-width pattern at line 117,
r(?<![A-Z\W])(?=[A-Z]), checked before a character `c` whose predecessor in
the original string is `prev` (`none` at the start of the string): `c` must
be an uppercase letter, and the negative lookbehind requires that the
preceding character is not uppercase and not a non-word character — which
holds vacuously at the start of the string, where no character precedes. -/
def splitsAt (prev : Option Char) (c : Char) : Bool :=
  c.isUpper &&
    (match prev with
     | none => true
     | some p => isWordChar p && !p.isUpper)

/-- Embedding of re.sub(pattern, a space, metric) from line 121: walk the
character list keeping the previous character of the ORIGINAL string (the
lookbehind inspects the input, not the output), inserting a space before
every position where the pattern matches.  No two adjacent positions can
both match, so this sequential insertion is exactly what re.sub does. -/
def formatAux : Option Char → List Char → List Char
  | _, [] => []
  | prev, c :: rest =>
    if splitsAt prev c then ' ' :: c :: formatAux (some c) rest
    else c :: formatAux (some c) rest

/-- Embedding of the metric-label formatting applied to each financial metric
identifier at lines 117..121 (the MetricLabelFormatter of the design
document). -/
def format (s : String) : String :=
  ⟨formatAux none s.data⟩

/-- Deleting every space character from a string. -/
def removeSpaces (s : String) : String :=
  ⟨s.data.filter (fun c => c != ' ')⟩

/-- Date-indexed table as fetched from the provider: the name of the index
column, the names of the value columns, and the rows, each a date text plus
one cell of text per column. -/
structure DataFrame where
  indexName : String
  columns : List String
  rows : List (String × List String)
deriving DecidableEq

/-- Embedding of load_historical_data (lines 82..96): the function calls the
provider history endpoint with the given arguments and returns the frame
unchanged — no emptiness check, no exception of its own.  The `Except Err`
result type records that this code path raises nothing. -/
def load_historical_data (history : String → String → String → DataFrame)
    (startDate endDate interval : String) : Except Err DataFrame :=
  Except.ok (history startDate endDate interval)

/-- Zero-row frame with the five OHLCV columns, as the provider returns for a
date range with no trading days. -/
def emptyHistory : DataFrame :=
  ⟨"Date", ["Open", "High", "Low", "Close", "Volume"], []⟩

/-- Calendar date of a reporting period. -/
structure Date where
  year : Int
  month : Nat
  day : Nat
deriving DecidableEq

/-- Embedding of the bar-chart data built at lines 241..244: the Year column
is the calendar year of each period date, kept in the column order of the
statement; the values are the selected metric row.  No sorting is applied
anywhere in the function. -/
def toBarByYear (columns : List Date) (values : List ℚ) :
    List Int × List ℚ :=
  (columns.map Date.year, values)

/-- Embedding of the add-to-watchlist handler at lines 279..281: append the
symbol only when it is not already in the session list. -/
def addToWatchlist (watchlist : List String) (symbol : String) :
    List String :=
  if symbol ∈ watchlist then watchlist else watchlist ++ [symbol]

/-- Round half to even on an exact rational: the rounding of the Python
round builtin.  Below one half above the floor round down, above one half
round up, exactly one half round to the even neighbour. -/
def roundHalfToEven (q : ℚ) : ℤ :=
  if q - ⌊q⌋ < 1 / 2 then ⌊q⌋
  else if 1 / 2 < q - ⌊q⌋ then ⌊q⌋ + 1
  else if ⌊q⌋ % 2 = 0 then ⌊q⌋ else ⌊q⌋ + 1

/-- Python round(x, 2) on an exact rational: round half to even at two
decimal places. -/
def round2 (q : ℚ) : ℚ :=
  (roundHalfToEven (q * 100) : ℚ) / 100

/-- Embedding of the percent-change expression at line 229,
round(((info open - info previousClose) / info previousClose) * 100, 2):
Python raises ZeroDivisionError when previousClose is zero, for floats as
well as for integers, so the division is modelled in `Except Err`. -/
def percentChange (openPrice previousClose : ℚ) : Except Err ℚ :=
  if previousClose = 0 then Except.error Err.zeroDivisionError
  else Except.ok (round2 ((openPrice - previousClose) / previousClose * 100))

/-- Metric-by-period financial statement: period end dates as columns and one
labelled row of values per metric, as returned by the provider financials
endpoint. -/
structure Financials where
  columns : List Date
  rows : List (String × List ℚ)
deriving DecidableEq

/-- Embedding of load_financial_data (lines 99..126): every metric identifier
of the statement index is replaced by its formatted label; the values and the
column order are unchanged. -/
def load_financial_data (statement : Financials) : Financials :=
  ⟨statement.columns, statement.rows.map (fun r => (format r.1, r.2))⟩

/-- Embedding of the pandas label lookup financial_data.loc[label] at line
241: the first row carrying the label, and a KeyError when no row does —
pandas raises its generic KeyError here, the code defines no error type of
its own. -/
def locRow (statement : Financials) (label : String) : Except Err (List ℚ) :=
  match statement.rows.find? (fun r => r.1 == label) with
  | some r => Except.ok r.2
  | none => Except.error Err.keyError

/-- Concrete two-metric, two-period statement used as test input. -/
def statementEx : Financials :=
  ⟨[⟨2023, 12, 31⟩, ⟨2022, 12, 31⟩],
   [("grossProfit", [10, 20]), ("costOfRevenue", [3, 4])]⟩

/-- Quote info mapping for one symbol as returned by the provider; a `none`
field is absent from the dict and raises KeyError on access. -/
structure QuoteInfo where
  shortName : Option String
  openPrice : Option ℚ
  previousClose : Option ℚ
deriving DecidableEq

/-- Python dict access info[key]: the value when the key is present, a
KeyError when it is absent. -/
def getField {α : Type} : Option α → Except Err α
  | some v => Except.ok v
  | none => Except.error Err.keyError

/-- Rendered row of the watchlist panel: company name, symbol, open price
and the two-decimal percent change shown by the metric widget. -/
structure WatchRow where
  shortName : String
  symbol : String
  openPrice : ℚ
  change : ℚ
deriving DecidableEq

/-- One iteration of the loop at lines 216..230: read shortName, open and
previousClose from the info dict and compute the percent change.  The loop
body contains no try/except and never substitutes a placeholder value, so
any KeyError or ZeroDivisionError escapes. -/
def renderWatchRow (info : QuoteInfo) (stock : String) :
    Except Err WatchRow := do
  let name ← getField info.shortName
  let o ← getField info.openPrice
  let p ← getField info.previousClose
  let change ← percentChange o p
  return ⟨name, stock, o, change⟩

/-- Embedding of display_watch_list (lines 203..230): render the entries in
order; the first exception aborts the remainder of the loop and with it the
whole render pass. -/
def display_watch_list (info : String → QuoteInfo) :
    List String → Except Err (List WatchRow)
  | [] => Except.ok []
  | stock :: rest => do
    let row ← renderWatchRow (info stock) stock
    let rows ← display_watch_list info rest
    return row :: rows

/-- Quote source with one broken symbol: BAD lacks the previousClose field,
every other symbol has complete data. -/
def infoEx : String → QuoteInfo := fun s =>
  if s = "BAD" then ⟨some "Bad Co", some 10, none⟩
  else ⟨some "Good Co", some 105, some 100⟩

/-- Comma-separated join of cell texts, one CSV line without terminator. -/
def commaJoin : List String → String
  | [] => ""
  | [x] => x
  | x :: xs => x ++ "," ++ commaJoin xs

/-- CSV body: one line per row, the date cell first, every line closed by a
newline. -/
def csvBody : List (String × List String) → String
  | [] => ""
  | r :: rs => commaJoin (r.1 :: r.2) ++ "\n" ++ csvBody rs

/-- Embedding of data.to_csv(index=True) at line 260 for frames of plain
text cells: a header line naming the index column and then the value
columns, followed by one line per row; every line, the last included, ends
in a newline. -/
def to_csv (df : DataFrame) : String :=
  commaJoin (df.indexName :: df.columns) ++ "\n" ++ csvBody df.rows

/-- Embedding of display_download_options (lines 247..260): the payload and
the file name handed to the download button. -/
def display_download_options (df : DataFrame) : String × String :=
  (to_csv df, "stock_data.csv")

/-- File name of the download as a function of the selected symbol, as the
call site at line 327 together with line 260 determines it: the f-string at
line 260 contains no placeholder, so the name is the same constant for every
symbol and for every frame. -/
def downloadName (_symbol : String) : String :=
  "stock_data.csv"

/-- Concrete one-row frame used as test input for the CSV export. -/
def historyEx : DataFrame :=
  ⟨"Date", ["Open", "High", "Low", "Close", "Volume"],
   [("2020-01-02", ["1", "2", "3", "4", "5"])]⟩

theorem formatAux_cons (prev : Option Char) (c : Char) (rest : List Char) :
    formatAux prev (c :: rest) =
      if splitsAt prev c then ' ' :: c :: formatAux (some c) rest
      else c :: formatAux (some c) rest := rfl

theorem splitsAt_space (q : Option Char) : splitsAt q ' ' = false := by
  have h : (' ').isUpper = false := by decide
  unfold splitsAt
  simp [h]

theorem splitsAt_after_space (c : Char) : splitsAt (some ' ') c = false := by
  have h : isWordChar ' ' = false := by decide
  unfold splitsAt
  simp [h, isWordChar]

theorem formatAux_idem (l : List Char) :
    ∀ prev, formatAux prev (formatAux prev l) = formatAux prev l := by
  induction l with
  | nil => intro prev; rfl
  | cons c rest ih =>
    intro prev
    cases h : splitsAt prev c with
    | true =>
      simp only [formatAux_cons, h, if_true, splitsAt_space, if_false,
        Bool.false_eq_true, splitsAt_after_space, ih (some c)]
    | false =>
      simp only [formatAux_cons, h, Bool.false_eq_true, if_false, ih (some c)]

theorem formatAux_filter_spaces (l : List Char) :
    ∀ prev, (formatAux prev l).filter (fun c => c != ' ')
      = l.filter (fun c => c != ' ') := by
  induction l with
  | nil => intro prev; rfl
  | cons c rest ih =>
    intro prev
    cases h : splitsAt prev c with
    | true =>
      have hspace : ((' ' : Char) != ' ') = false := by decide
      simp only [formatAux_cons, h, if_true, List.filter_cons, hspace,
        Bool.false_eq_true, if_false, ih (some c)]
    | false =>
      simp only [formatAux_cons, h, Bool.false_eq_true, if_false,
        List.filter_cons, ih (some c)]

/-- C1: the spec says format("ReturnOnEquity") = "Return On Equity",
format("EBIT") = "EBIT" and that the first character is left untouched; the
code instead inserts a leading space before any initial uppercase letter,
because the negative lookbehind of the regex holds vacuously at the start of
the string, contradicting the comment at lines 115..116 of the source which
documents the intended preceding-word-character requirement. -/
theorem c1_format_leading_space_bug :
    format "ReturnOnEquity" = " Return On Equity" ∧
    format "EBIT" = " EBIT" ∧
    format "grossProfit" = "gross Profit" ∧
    format "" = "" ∧
    (" Return On Equity" : String) ≠ "Return On Equity" := by
  refine ⟨?_, ?_, ?_, ?_, ?_⟩ <;> decide

/-- C2: format is idempotent on every string, already-spaced labels
included: once a space (a non-word character) precedes an uppercase letter,
the lookbehind can no longer match there, and a string starting with a space
cannot match at position zero. -/
theorem c2_format_idempotent (x : String) :
    format (format x) = format x :=
  congrArg String.mk (formatAux_idem x.data none)

/-- C10: format only inserts space characters, so on a space-free input
deleting all spaces from the output recovers the input exactly. -/
theorem c10_format_space_invertible (x : String) (h : ' ' ∉ x.data) :
    removeSpaces (format x) = x := by
  have hfilter : x.data.filter (fun c => c != ' ') = x.data := by
    rw [List.filter_eq_self]
    intro a ha
    have : a ≠ ' ' := fun he => h (he ▸ ha)
    simpa using this
  show (⟨(formatAux none x.data).filter (fun c => c != ' ')⟩ : String) = x
  rw [formatAux_filter_spaces x.data none, hfilter]

/-- Witness for C10 at the concrete identifier "grossProfit". -/
theorem c10_format_space_invertible_witness :
    removeSpaces (format "grossProfit") = "grossProfit" :=
  c10_format_space_invertible "grossProfit" (by decide)

/-- Counterexample for C3: on a zero-row fetch the code returns the empty
frame successfully; no EmptySeriesError is raised anywhere. -/
theorem c3_counterexample :
    load_historical_data (fun _ _ _ => emptyHistory) "2020-01-01" "2020-01-10"
        "1d" = Except.ok emptyHistory ∧
    emptyHistory.rows.length = 0 ∧
    load_historical_data (fun _ _ _ => emptyHistory) "2020-01-01" "2020-01-10"
        "1d" ≠ Except.error Err.emptySeriesError := by
  refine ⟨rfl, rfl, ?_⟩
  intro h
  exact Except.noConfusion h

/-- C3 amended: the loader is a pure pass-through with no emptiness check —
it never raises, a zero-row fetch comes back as an empty series, and a
single-row fetch comes back unchanged with whatever columns the provider
supplied (the five OHLCV columns among them when the provider includes
them). -/
theorem c3_load_historical_passthrough
    (history : String → String → String → DataFrame)
    (startDate endDate interval : String) :
    load_historical_data history startDate endDate interval
      = Except.ok (history startDate endDate interval) ∧
    ∀ e : Err, load_historical_data history startDate endDate interval
      ≠ Except.error e := by
  refine ⟨rfl, ?_⟩
  intro e h
  exact Except.noConfusion h

/-- Counterexample for C6: statements arrive with the most recent period
first, and the code applies no sort, so the output years are descending for
such an input — the adjacent pair (2023, 2022) is decreasing. -/
theorem c6_counterexample :
    (toBarByYear [⟨2023, 12, 31⟩, ⟨2022, 12, 31⟩] [10, 20]).1
      = [2023, 2022] ∧
    ¬ List.Chain' (· ≤ ·) (toBarByYear [⟨2023, 12, 31⟩, ⟨2022, 12, 31⟩]
      [10, 20]).1 := by
  refine ⟨rfl, ?_⟩
  intro h
  exact absurd (List.chain'_cons.mp h).1 (by decide)

/-- C6 amended: toBarByYear reports the years in the column order of the
statement, so its output years are non-decreasing exactly when the statement
periods already come in non-decreasing year order; the function itself sorts
nothing. -/
theorem c6_toBarByYear_amended (columns : List Date) (values : List ℚ)
    (h : List.Chain' (fun a b => a.year ≤ b.year) columns) :
    (toBarByYear columns values).1 = columns.map Date.year ∧
    List.Chain' (· ≤ ·) (toBarByYear columns values).1 := by
  refine ⟨rfl, ?_⟩
  show List.Chain' (· ≤ ·) (columns.map Date.year)
  exact (List.chain'_map Date.year).mpr h

/-- Witness for C6 on a statement whose periods are already ascending. -/
theorem c6_toBarByYear_witness :
    (toBarByYear [⟨2020, 12, 31⟩, ⟨2021, 12, 31⟩, ⟨2022, 12, 31⟩] [1, 2, 3]).1
      = [2020, 2021, 2022] ∧
    List.Chain' (· ≤ ·)
      (toBarByYear [⟨2020, 12, 31⟩, ⟨2021, 12, 31⟩, ⟨2022, 12, 31⟩]
        [1, 2, 3]).1 :=
  c6_toBarByYear_amended [⟨2020, 12, 31⟩, ⟨2021, 12, 31⟩, ⟨2022, 12, 31⟩]
    [1, 2, 3]
    (List.Chain.cons (by decide) (List.Chain.cons (by decide) List.Chain.nil))

/-- C7: add is a no-op on a present symbol and appends an absent symbol at
the end, it preserves distinctness of the list, and adding the same symbol
twice to the empty watchlist yields the one-element list. -/
theorem c7_add_semantics (watchlist : List String) (symbol : String) :
    (symbol ∈ watchlist → addToWatchlist watchlist symbol = watchlist) ∧
    (symbol ∉ watchlist →
      addToWatchlist watchlist symbol = watchlist ++ [symbol]) ∧
    (watchlist.Nodup → (addToWatchlist watchlist symbol).Nodup) ∧
    addToWatchlist (addToWatchlist [] symbol) symbol = [symbol] := by
  refine ⟨fun h => if_pos h, fun h => if_neg h, ?_, ?_⟩
  · intro hnd
    by_cases h : symbol ∈ watchlist
    · rw [addToWatchlist, if_pos h]; exact hnd
    · rw [addToWatchlist, if_neg h]
      simpa [List.nodup_append] using ⟨hnd, h⟩
  · have h1 : addToWatchlist [] symbol = [symbol] := by
      rw [addToWatchlist, if_neg (List.not_mem_nil symbol)]; rfl
    rw [h1, addToWatchlist, if_pos (List.mem_singleton.mpr rfl)]

/-- Witness for C7: double add of GOOGL to the empty list gives one entry,
and adding AAPL to a list not containing it appends it at the end. -/
theorem c7_add_witness :
    addToWatchlist (addToWatchlist [] "GOOGL") "GOOGL" = ["GOOGL"] ∧
    addToWatchlist ["GOOGL"] "AAPL" = ["GOOGL", "AAPL"] :=
  ⟨(c7_add_semantics [] "GOOGL").2.2.2,
   (c7_add_semantics ["GOOGL"] "AAPL").2.1 (by decide)⟩

theorem roundHalfToEven_close (q : ℚ) :
    |(roundHalfToEven q : ℚ) - q| ≤ 1 / 2 := by
  have h0 : (⌊q⌋ : ℚ) ≤ q := Int.floor_le q
  have h1 : q < ⌊q⌋ + 1 := Int.lt_floor_add_one q
  unfold roundHalfToEven
  rw [abs_le]
  split_ifs with ha hb hc
  · constructor <;> linarith
  · rw [not_lt] at ha
    constructor <;> push_cast <;> linarith
  · rw [not_lt] at ha hb
    constructor <;> linarith
  · rw [not_lt] at ha hb
    constructor <;> push_cast <;> linarith

theorem round2_close (x : ℚ) : |round2 x - x| ≤ 1 / 200 := by
  have h := roundHalfToEven_close (x * 100)
  rw [abs_le] at h ⊢
  unfold round2
  have hx : (roundHalfToEven (x * 100) : ℚ) / 100 - x
      = ((roundHalfToEven (x * 100) : ℚ) - x * 100) / 100 := by ring
  rw [hx]
  constructor <;> linarith [h.1, h.2]

theorem percentChange_105_100 : percentChange 105 100 = Except.ok 5 := by
  have harg : ((105 : ℚ) - 100) / 100 * 100 = 5 := by norm_num
  have h500 : ((5 : ℚ) * 100) = 500 := by norm_num
  have hfloor : ⌊(500 : ℚ)⌋ = 500 := by norm_num
  have h5 : round2 5 = 5 := by
    rw [round2, h500, roundHalfToEven, hfloor]
    norm_num
  rw [percentChange, if_neg (by norm_num : (100 : ℚ) ≠ 0), harg, h5]

/-- Counterexample for C4: at previousClose = 0 the code performs the
division anyway and a ZeroDivisionError escapes to the caller — no value,
unavailable or otherwise, is produced. -/
theorem c4_counterexample :
    percentChange 105 0 = Except.error Err.zeroDivisionError ∧
    ∀ v : ℚ, percentChange 105 0 ≠ Except.ok v := by
  constructor
  · rw [percentChange, if_pos rfl]
  · intro v h
    rw [percentChange, if_pos rfl] at h
    exact Except.noConfusion h

/-- C4 amended: for previousClose ≠ 0 the computed change is the exact
percent change rounded to two decimals — an integer multiple of one
hundredth within half a hundredth of the exact value; for previousClose = 0
the division raises ZeroDivisionError, performed unconditionally by the
code. -/
theorem c4_percentChange_amended (o p : ℚ) :
    (p = 0 → percentChange o p = Except.error Err.zeroDivisionError) ∧
    (p ≠ 0 → ∃ v : ℚ, percentChange o p = Except.ok v ∧
      (∃ n : ℤ, v = (n : ℚ) / 100) ∧
      |v - (o - p) / p * 100| ≤ 1 / 200) := by
  constructor
  · intro h
    rw [percentChange, if_pos h]
  · intro h
    refine ⟨round2 ((o - p) / p * 100), ?_,
      ⟨roundHalfToEven ((o - p) / p * 100 * 100), rfl⟩, round2_close _⟩
    rw [percentChange, if_neg h]

/-- Witness for C4 at open = 105, previousClose = 100: the rounded change
exists, is a multiple of one hundredth close to the exact value, and equals
exactly 5. -/
theorem c4_percentChange_witness :
    (∃ v : ℚ, percentChange 105 100 = Except.ok v ∧
      (∃ n : ℤ, v = (n : ℚ) / 100) ∧
      |v - (105 - 100) / 100 * 100| ≤ 1 / 200) ∧
    percentChange 105 100 = Except.ok 5 := by
  exact ⟨(c4_percentChange_amended 105 100).2 (by norm_num),
    percentChange_105_100⟩

/-- Counterexample for C5: looking up a label absent from the formatted
statement index yields the generic pandas KeyError, which is not a
MetricNotFoundError, and no row is returned. -/
theorem c5_counterexample :
    locRow (load_financial_data statementEx) "notAMetric"
      = Except.error Err.keyError ∧
    Err.keyError ≠ Err.metricNotFoundError ∧
    ∀ row : List ℚ, locRow (load_financial_data statementEx) "notAMetric"
      ≠ Except.ok row := by
  refine ⟨rfl, by decide, ?_⟩
  intro row h
  rw [show locRow (load_financial_data statementEx) "notAMetric"
      = Except.error Err.keyError from rfl] at h
  exact Except.noConfusion h

/-- C5 amended: when the requested name is absent from the formatted labels
the lookup fails with the generic KeyError — never an empty or default
series — and the available labels are exactly the source identifiers passed
through the formatter, order preserved. -/
theorem c5_selectMetric_amended (statement : Financials) (metricName : String)
    (h : metricName ∉ (load_financial_data statement).rows.map Prod.fst) :
    locRow (load_financial_data statement) metricName
      = Except.error Err.keyError ∧
    (load_financial_data statement).rows.map Prod.fst
      = statement.rows.map (fun r => format r.1) := by
  constructor
  · have hf : (load_financial_data statement).rows.find?
        (fun r => r.1 == metricName) = none := by
      rw [List.find?_eq_none]
      intro r hr hbeq
      exact h (List.mem_map.mpr ⟨r, hr, (beq_iff_eq.mp hbeq).symm ▸ rfl⟩)
    unfold locRow
    rw [hf]
  · rw [load_financial_data]
    rw [List.map_map]
    rfl

/-- Witness for C5 at a concrete statement and a concrete absent name. -/
theorem c5_selectMetric_witness :
    locRow (load_financial_data statementEx) "missingMetric"
      = Except.error Err.keyError ∧
    (load_financial_data statementEx).rows.map Prod.fst
      = statementEx.rows.map (fun r => format r.1) :=
  c5_selectMetric_amended statementEx "missingMetric" (by decide)

/-- Counterexample for C8: with the broken symbol BAD first in the
watchlist the whole render fails with the propagated KeyError and the
healthy GOOD entry is never rendered, although GOOD alone renders fine;
nothing substitutes an N/A placeholder anywhere. -/
theorem c8_counterexample :
    display_watch_list infoEx ["BAD", "GOOD"] = Except.error Err.keyError ∧
    (∀ rows : List WatchRow,
      display_watch_list infoEx ["BAD", "GOOD"] ≠ Except.ok rows) ∧
    display_watch_list infoEx ["GOOD"]
      = Except.ok [⟨"Good Co", "GOOD", 105, 5⟩] := by
  refine ⟨rfl, ?_, ?_⟩
  · intro rows h
    rw [show display_watch_list infoEx ["BAD", "GOOD"]
        = Except.error Err.keyError from rfl] at h
    exact Except.noConfusion h
  · have hgood : display_watch_list infoEx ["GOOD"]
        = Except.bind (percentChange 105 100)
            (fun change => Except.ok [⟨"Good Co", "GOOD", 105, change⟩]) :=
      rfl
    rw [hgood, percentChange_105_100]
    rfl

/-- C8 amended: a fetch failure or missing quote field in one watchlist
entry is not recovered: the exception propagates out of the loop, so the
entries after the broken one are not rendered at all — no N/A substitution
exists in the code. -/
theorem c8_error_propagation (info : String → QuoteInfo) (stock : String)
    (rest : List String) (e : Err)
    (h : renderWatchRow (info stock) stock = Except.error e) :
    display_watch_list info (stock :: rest) = Except.error e ∧
    ∀ rows : List WatchRow,
      display_watch_list info (stock :: rest) ≠ Except.ok rows := by
  have hd : display_watch_list info (stock :: rest) = Except.error e := by
    simp only [display_watch_list, h]
    rfl
  exact ⟨hd, fun rows hrows => Except.noConfusion (hd ▸ hrows)⟩

/-- Witness for C8: the broken entry BAD aborts a three-entry watchlist. -/
theorem c8_error_propagation_witness :
    display_watch_list infoEx ["BAD", "AAPL", "MSFT"]
      = Except.error Err.keyError ∧
    ∀ rows : List WatchRow,
      display_watch_list infoEx ["BAD", "AAPL", "MSFT"]
        ≠ Except.ok rows :=
  c8_error_propagation infoEx "BAD" ["AAPL", "MSFT"] Err.keyError rfl

theorem commaJoin_no_newline (l : List String)
    (h : ∀ s ∈ l, '\n' ∉ s.data) : '\n' ∉ (commaJoin l).data := by
  induction l with
  | nil => simp [commaJoin]
  | cons x xs ih =>
    cases xs with
    | nil => simpa [commaJoin] using h x (List.mem_cons_self x [])
    | cons y ys =>
      rw [show commaJoin (x :: y :: ys)
          = x ++ "," ++ commaJoin (y :: ys) from rfl]
      rw [String.data_append, String.data_append]
      intro hmem
      rcases List.mem_append.mp hmem with h1 | h2
      · rcases List.mem_append.mp h1 with h3 | h4
        · exact h x (List.mem_cons_self x (y :: ys)) h3
        · exact absurd h4 (by decide)
      · exact ih (fun s hs => h s (List.mem_cons_of_mem x hs)) h2

theorem csvBody_count (rows : List (String × List String))
    (h : ∀ r ∈ rows, '\n' ∉ r.1.data ∧ ∀ cell ∈ r.2, '\n' ∉ cell.data) :
    (csvBody rows).data.count '\n' = rows.length := by
  induction rows with
  | nil => rfl
  | cons r rs ih =>
    have hline : '\n' ∉ (commaJoin (r.1 :: r.2)).data := by
      refine commaJoin_no_newline _ ?_
      intro s hs
      rcases List.mem_cons.mp hs with h1 | h2
      · exact h1 ▸ (h r (List.mem_cons_self r rs)).1
      · exact (h r (List.mem_cons_self r rs)).2 s h2
    rw [show csvBody (r :: rs)
        = commaJoin (r.1 :: r.2) ++ "\n" ++ csvBody rs from rfl]
    rw [String.data_append, String.data_append]
    rw [List.count_append, List.count_append]
    rw [List.count_eq_zero.mpr hline,
      ih (fun x hx => h x (List.mem_cons_of_mem r hx))]
    simp [List.length_cons]
    omega

theorem csvBody_empty_or_trailing (rows : List (String × List String)) :
    csvBody rows = "" ∨ ∃ t : String, csvBody rows = t ++ "\n" := by
  induction rows with
  | nil => exact Or.inl rfl
  | cons r rs ih =>
    right
    rcases ih with h | ⟨t, ht⟩
    · refine ⟨commaJoin (r.1 :: r.2), ?_⟩
      rw [show csvBody (r :: rs)
          = commaJoin (r.1 :: r.2) ++ "\n" ++ csvBody rs from rfl, h]
      rw [String.append_empty]
    · refine ⟨commaJoin (r.1 :: r.2) ++ "\n" ++ t, ?_⟩
      rw [show csvBody (r :: rs)
          = commaJoin (r.1 :: r.2) ++ "\n" ++ csvBody rs from rfl, ht]
      rw [← String.append_assoc]

/-- Counterexample for C9: the download name is the same constant for two
different symbols and shares no character with the symbol GOOGL, so it is
not derived from the selected symbol — the f-string at line 260 has no
placeholder. -/
theorem c9_counterexample :
    downloadName "GOOGL" = "stock_data.csv" ∧
    downloadName "GOOGL" = downloadName "MSFT" ∧
    'G' ∈ ("GOOGL" : String).data ∧
    'G' ∉ (downloadName "GOOGL").data :=
  ⟨rfl, rfl, by decide, by decide⟩

/-- C9 amended: for a frame whose cells contain no newline, the export is a
comma-separated table with a header line and one line per row (exactly one
newline closes each of them), a trailing newline, and the header
Date,Open,High,Low,Close,Volume when the frame carries exactly those
columns; the download is offered under the fixed name stock_data.csv, for
every symbol and frame alike. -/
theorem c9_toCsv_amended (df : DataFrame)
    (hIdx : '\n' ∉ df.indexName.data)
    (hCols : ∀ c ∈ df.columns, '\n' ∉ c.data)
    (hCells : ∀ r ∈ df.rows, '\n' ∉ r.1.data ∧
      ∀ cell ∈ r.2, '\n' ∉ cell.data) :
    (to_csv df).data.count '\n' = 1 + df.rows.length ∧
    (∃ t : String, to_csv df = t ++ "\n") ∧
    (df.indexName = "Date" →
      df.columns = ["Open", "High", "Low", "Close", "Volume"] →
      ∃ rest : String,
        to_csv df = "Date,Open,High,Low,Close,Volume\n" ++ rest) ∧
    display_download_options df = (to_csv df, "stock_data.csv") := by
  have hheader : '\n' ∉ (commaJoin (df.indexName :: df.columns)).data := by
    refine commaJoin_no_newline _ ?_
    intro s hs
    rcases List.mem_cons.mp hs with h1 | h2
    · exact h1 ▸ hIdx
    · exact hCols s h2
  refine ⟨?_, ?_, ?_, rfl⟩
  · rw [to_csv, String.data_append, String.data_append]
    rw [List.count_append, List.count_append]
    rw [List.count_eq_zero.mpr hheader, csvBody_count df.rows hCells]
    simp
  · rcases csvBody_empty_or_trailing df.rows with h | ⟨t, ht⟩
    · refine ⟨commaJoin (df.indexName :: df.columns), ?_⟩
      rw [to_csv, h, String.append_empty]
    · refine ⟨commaJoin (df.indexName :: df.columns) ++ "\n" ++ t, ?_⟩
      rw [to_csv, ht, ← String.append_assoc]
  · intro h1 h2
    refine ⟨csvBody df.rows, ?_⟩
    rw [to_csv, h1, h2]
    exact congrArg (fun s => s ++ csvBody df.rows) (by decide)

/-- Witness for C9 at a concrete one-row OHLCV frame. -/
theorem c9_toCsv_witness :
    (to_csv historyEx).data.count '\n' = 1 + historyEx.rows.length ∧
    (∃ t : String, to_csv historyEx = t ++ "\n") ∧
    (historyEx.indexName = "Date" →
      historyEx.columns = ["Open", "High", "Low", "Close", "Volume"] →
      ∃ rest : String,
        to_csv historyEx = "Date,Open,High,Low,Close,Volume\n" ++ rest) ∧
    display_download_options historyEx
      = (to_csv historyEx, "stock_data.csv") :=
  c9_toCsv_amended historyEx (by decide) (by decide) (by decide)

end StockDashboard
